import Mathlib

/-!
Verification of the ReShade FX effect parser (src/source/effect_parser.cpp)
against its natural-language specification.

The development shallowly embeds the parts of the parser that the claims
touch.  Machine integers are modelled as Nat (bit patterns for 32-bit
lanes), fallible parsing steps return explicit success flags or Except,
and the mutable parser state is threaded explicitly.
-/

namespace Reshadefx

/-! ## Shared type descriptor fragments

The spv_type descriptor lives in a header that is not part of the
source tree; the fields and invariants used below follow spec sections
3.1 and 4.1 (base kind, rows, cols, array_length, qualifier flags). -/

inductive BaseType where
  | tvoid
  | tbool
  | tint
  | tuint
  | tfloat
  | tstring
  | tstruct
  | ttexture
  | tsampler
  deriving DecidableEq, Repr

/-- Modelled from the spec: qualifier flags of spv_type (spec section 3.1
lists the qualifier bitset).  Only the two flags that the claims exercise
are carried; the source stores them as distinct bits of one bitmask and
the code under study only ever sets the const bit and clears the uniform
bit together (effect_parser.cpp lines 1302-1303, 1342-1343). -/
structure Qualifiers where
  uniformQ : Bool
  constQ : Bool
  deriving DecidableEq, Repr

/-- Modelled from the spec (section 3.1): the fields of the spv_type value
that the embedded code paths read. -/
structure SpvType where
  base : BaseType
  rows : Nat
  cols : Nat
  arrayLength : Int
  quals : Qualifiers
  deriving DecidableEq, Repr

/-- Modelled from the spec (section 4.1): numeric bases are bool, int,
uint and float. -/
def BaseType.isNumeric : BaseType → Bool
  | .tbool => true
  | .tint => true
  | .tuint => true
  | .tfloat => true
  | _ => false

/-- Modelled from the spec (sections 3.1 and 4.1): a scalar is a numeric
non-array type with rows = cols = 1. -/
def SpvType.isScalar (t : SpvType) : Bool :=
  t.base.isNumeric && t.arrayLength == 0 && t.rows == 1 && t.cols == 1

def SpvType.isFloating (t : SpvType) : Bool :=
  t.base == .tfloat && t.arrayLength == 0

/-! ## C3: std140 offsets of the hidden $Globals uniform block

Embeds the helper align (effect_parser.cpp lines 40-43) and the
uniform-member branch of parse_variable (lines 2953-2986). -/

/-- align from effect_parser.cpp lines 40-43:
(address % alignment != 0) ? address + alignment - address % alignment : address. -/
def align (address alignment : Nat) : Nat :=
  if address % alignment != 0 then address + alignment - address % alignment else address

/-- The parser state touched by the uniform branch of parse_variable:
the running $Globals offset, the member list and the recorded
OffsetDecoration list (member index, byte offset). -/
structure UboState where
  globalUboType : Nat
  globalUboVariable : Nat
  globalUboOffset : Nat
  nextId : Nat
  memberTypes : List SpvType
  offsetDecorations : List (Nat × Nat)
  deriving Repr

/-- make_id: the IR builder reserves monotonically increasing ids
(spec section 4.8); modelled as a counter. -/
def UboState.makeId (st : UboState) : Nat × UboState :=
  (st.nextId, { st with nextId := st.nextId + 1 })

/-- The uniform-variable branch of parse_variable, effect_parser.cpp
lines 2953-2986: allocate the $Globals ids on first use, widen bool to
uint, append the member, compute size = 4 * (rows == 3 ? 4 : rows) *
cols * max(1, array_length), align the running offset to the size,
record the member Offset decoration and advance the offset by size. -/
def parse_variable_uniform (st : UboState) (type0 : SpvType) : UboState :=
  let st := if st.globalUboType == 0 then
    (let p := st.makeId; { p.2 with globalUboType := p.1 }) else st
  let st := if st.globalUboVariable == 0 then
    (let p := st.makeId; { p.2 with globalUboVariable := p.1 }) else st
  let type1 := if type0.base == .tbool then { type0 with base := .tuint } else type0
  let memberIndex := st.memberTypes.length
  let size : Nat :=
    4 * (if type1.rows == 3 then 4 else type1.rows) * type1.cols *
      (max 1 type1.arrayLength).toNat
  let alignment := size
  let offset := align st.globalUboOffset alignment
  { st with
    memberTypes := st.memberTypes ++ [type1]
    offsetDecorations := st.offsetDecorations ++ [(memberIndex, offset)]
    globalUboOffset := offset + size }

/-- The spec formula for a member's size (spec sections 4.6 and 8.6):
size = 4 * (rows == 3 ? 4 : rows) * cols * max(1, array_length). -/
def specMemberSize (rows cols : Nat) (arrayLength : Int) : Nat :=
  4 * (if rows == 3 then 4 else rows) * cols * (max 1 arrayLength).toNat

/-- Initial state of a fresh compilation for the $Globals bookkeeping. -/
def UboState.initial : UboState :=
  { globalUboType := 0, globalUboVariable := 0, globalUboOffset := 0,
    nextId := 100, memberTypes := [], offsetDecorations := [] }

/-- The example declarations of the claim: float4x4 M and float3 v,
in declaration order (uniform numeric globals). -/
def exampleMat4Type : SpvType :=
  { base := .tfloat, rows := 4, cols := 4, arrayLength := 0,
    quals := { uniformQ := true, constQ := false } }

def exampleVec3Type : SpvType :=
  { base := .tfloat, rows := 3, cols := 1, arrayLength := 0,
    quals := { uniformQ := true, constQ := false } }

end Reshadefx

namespace Reshadefx

/-- C3: for every numeric uniform global with dimensions (rows, cols) and
array length a, the member offset assigned in the $Globals block equals
align(previous_offset, size) with size = 4 * (rows==3?4:rows) * cols *
max(1, a), the running offset advances by size and the member carries an
Offset decoration; in particular float4x4 M then float3 v receive offsets
0 (size 64) and 64 (size 16). -/
theorem c3_std140_uniform_offsets (st : UboState) (t : SpvType)
    (hr : 1 ≤ t.rows) (hc : 1 ≤ t.cols) :
    (parse_variable_uniform st t).offsetDecorations =
      st.offsetDecorations ++
        [(st.memberTypes.length,
          align st.globalUboOffset (specMemberSize t.rows t.cols t.arrayLength))] ∧
    (parse_variable_uniform st t).globalUboOffset =
      align st.globalUboOffset (specMemberSize t.rows t.cols t.arrayLength) +
        specMemberSize t.rows t.cols t.arrayLength ∧
    (parse_variable_uniform UboState.initial exampleMat4Type).offsetDecorations
      = [(0, 0)] ∧
    (parse_variable_uniform (parse_variable_uniform UboState.initial exampleMat4Type)
        exampleVec3Type).offsetDecorations = [(0, 0), (1, 64)] ∧
    (parse_variable_uniform (parse_variable_uniform UboState.initial exampleMat4Type)
        exampleVec3Type).globalUboOffset = 80 := by
  refine ⟨?_, ?_, by decide, by decide, by decide⟩ <;>
  · simp only [parse_variable_uniform, specMemberSize, UboState.makeId]
    split <;> split <;> split <;> simp_all

/-- Witness for c3_std140_uniform_offsets at a concrete state and type. -/
theorem c3_std140_uniform_offsets_witness :
    (parse_variable_uniform UboState.initial exampleVec3Type).offsetDecorations
      = UboState.initial.offsetDecorations ++
        [(UboState.initial.memberTypes.length,
          align UboState.initial.globalUboOffset (specMemberSize 3 1 0))] :=
  (c3_std140_uniform_offsets UboState.initial exampleVec3Type
    (by decide) (by decide)).1

/-! ## IEEE-754 binary32 bit patterns

Constant lanes of the spv_constant union are 32-bit words that the code
reinterprets as uint, int or float (spec section 3.2).  Lanes are
modelled as Nat bit patterns below 2^32; the following functions decode
the float interpretation. -/

def f32sign (b : Nat) : Nat := b / 2 ^ 31 % 2

def f32exponent (b : Nat) : Nat := b / 2 ^ 23 % 2 ^ 8

def f32mantissa (b : Nat) : Nat := b % 2 ^ 23

def f32isNaN (b : Nat) : Bool := f32exponent b == 255 && f32mantissa b != 0

/-- Both zero encodings 0x00000000 and 0x80000000 denote the value zero. -/
def f32isZero (b : Nat) : Bool := b % 2 ^ 31 == 0

/-- The rational value of a normal binary32 bit pattern
(sign, biased exponent, 23-bit mantissa). -/
def f32value (b : Nat) : ℚ :=
  (if f32sign b == 1 then -1 else 1) *
    (1 + (f32mantissa b : ℚ) / 2 ^ 23) * 2 ^ ((f32exponent b : ℤ) - 127)

/-- IEEE-754 ordered equality on binary32 bit patterns (the semantics of
the FOrdEqual opcode the claim refers to): NaN compares unequal to
everything, the two zero encodings are equal, and every other value has
a unique encoding, so equality is bit equality. -/
def fordEqual (a b : Nat) : Bool :=
  if f32isNaN a || f32isNaN b then false
  else if f32isZero a && f32isZero b then true
  else a == b

/-! ## C4: constant folding of float equality comparisons

Embeds the constant-folding switch cases of parse_expression_multary for
the equality operators, effect_parser.cpp lines 1656-1671.  The source
case for OpFOrdEqual writes the float comparison into the lanes and then
falls through (there is no break) into the OpIEqual / OpLogicalEqual
case, which overwrites every lane with the integer comparison
as_uint[i] == as_uint[i]; the same happens for OpFOrdNotEqual falling
into OpINotEqual / OpLogicalNotEqual. -/

def boolLane (b : Bool) : Nat := if b then 1 else 0

/-- Folding of the == operator when the merged type is floating-point
(so the opcode chosen at lines 1453-1454 is OpFOrdEqual), lines
1656-1663: first loop writes the float-ordered comparison per lane, then
control falls through and the second loop overwrites each lane with the
raw 32-bit comparison. -/
def foldFOrdEqual (components : Nat) (lhs rhs : List Nat) : List Nat :=
  let afterFloatLoop :=
    (List.range components).map fun i =>
      boolLane (fordEqual (lhs.getD i 0) (rhs.getD i 0))
  let _ := afterFloatLoop
  (List.range components).map fun i => boolLane (lhs.getD i 0 == rhs.getD i 0)

/-- Folding of the != operator when the merged type is floating-point
(opcode OpFOrdNotEqual, lines 1456-1457), lines 1664-1671: float loop,
then fall-through into the integer loop. -/
def foldFOrdNotEqual (components : Nat) (lhs rhs : List Nat) : List Nat :=
  let afterFloatLoop :=
    (List.range components).map fun i =>
      boolLane (!fordEqual (lhs.getD i 0) (rhs.getD i 0))
  let _ := afterFloatLoop
  (List.range components).map fun i => boolLane (lhs.getD i 0 != rhs.getD i 0)

/-- The bit pattern of the float constant -0.0. -/
def negZeroBits : Nat := 0x80000000

/-- The bit pattern of the float constant 0.0. -/
def posZeroBits : Nat := 0

end Reshadefx

namespace Reshadefx

/-- C4: the claim that folding == on float constants produces the
float-ordered comparison in every lane fails: for the scalar float
constants -0.0 and 0.0, FOrdEqual semantics give true, but the folding
code (whose OpFOrdEqual case falls through into the integer case)
produces the lane 0, i.e. false; != likewise yields true instead of
false.  This contradicts the opcode the same function selected for the
comparison, matching the fall-through slip the design notes flag. -/
theorem c4_float_equality_folding_bug :
    fordEqual negZeroBits posZeroBits = true ∧
    foldFOrdEqual 1 [negZeroBits] [posZeroBits] = [boolLane false] ∧
    foldFOrdNotEqual 1 [negZeroBits] [posZeroBits] = [boolLane true] := by
  refine ⟨by decide, ?_, ?_⟩ <;> decide

/-! ## C5: semantic string to built-in mapping

Embeds semantic_to_builtin, effect_parser.cpp lines 21-38.  The function
upper-cases the semantic in place, early-returns a built-in for the four
recognized names, and otherwise assigns the reference-parameter index
only for names strictly longer than and starting with SV_TARGET or
TEXCOORD before returning BuiltInMax. -/

inductive BuiltIn where
  | Position
  | PointSize
  | FragDepth
  | VertexId
  | BuiltInMax
  deriving DecidableEq, Repr

/-- The value of the leading decimal digit run: what a successful
std::stol call returns on the tails considered here.  The throwing
cases of std::stol are handled in stolIdentTail. -/
def stolDigitsAux (acc : Nat) : List Char → Nat
  | [] => acc
  | c :: rest => if c.isDigit then stolDigitsAux (acc * 10 + (c.toNat - 48)) rest else acc

def stolDigits (s : List Char) : Nat := stolDigitsAux 0 s

/-- LONG_MAX of the compilation target: the source is a Windows effect
runtime built with a 32-bit long, so std::stol accepts values up to
2^31 - 1 and throws std::out_of_range beyond. -/
def longMaxC : Nat := 2 ^ 31 - 1

/-- Identifier characters: what the lexer's identifier tokens consist
of.  Every call site of semantic_to_builtin (effect_parser.cpp lines
2682, 2776, 2800 and 2878) passes the literal of a token obtained with
expect(tokenid::identifier), so the semantic contains no whitespace and
no sign characters; upper-casing preserves the class. -/
def isIdentChar (c : Char) : Bool := c.isAlpha || c.isDigit || c == '_'

def headIsDigit : List Char → Bool
  | c :: _ => c.isDigit
  | [] => false

/-- std::stol applied to an identifier-character tail (see isIdentChar
for why no whitespace or sign occurs): it throws std::invalid_argument
(none) when the tail does not start with a decimal digit, reads the
leading digit run otherwise, and throws std::out_of_range (none) when
that value exceeds LONG_MAX. -/
def stolIdentTail (s : List Char) : Option Nat :=
  match s with
  | [] => none
  | c :: _ =>
    if c.isDigit then
      if stolDigits s ≤ longMaxC then some (stolDigits s) else none
    else none

/-- semantic_to_builtin, effect_parser.cpp lines 21-38.  The result is
none when the call does not return because std::stol throws (lines
34/36); otherwise it is the returned built-in paired with the value of
the by-reference unsigned int index parameter after the call, which is
only written by the two prefix branches (the long result of std::stol
converts to unsigned int modulo 2^32). -/
def semantic_to_builtin (semantic : String) (index : Nat) : Option (BuiltIn × Nat) :=
  let sem := semantic.data.map Char.toUpper
  if sem = "SV_POSITION".data then some (.Position, index)
  else if sem = "SV_POINTSIZE".data then some (.PointSize, index)
  else if sem = "SV_DEPTH".data then some (.FragDepth, index)
  else if sem = "VERTEXID".data ∨ sem = "SV_VERTEXID".data then some (.VertexId, index)
  else
    let step1 :=
      if sem.length > 9 ∧ sem.take 9 = "SV_TARGET".data
      then (stolIdentTail (sem.drop 9)).map (· % 2 ^ 32)
      else some index
    match step1 with
    | none => none
    | some index1 =>
      let step2 :=
        if sem.length > 8 ∧ sem.take 8 = "TEXCOORD".data
        then (stolIdentTail (sem.drop 8)).map (· % 2 ^ 32)
        else some index1
      match step2 with
      | none => none
      | some index2 => some (.BuiltInMax, index2)

end Reshadefx

namespace Reshadefx

/-- A semantic whose case-folded form starts with SV_TARGET cannot also
start with TEXCOORD. -/
theorem take8_of_take9_svtarget (sem : List Char)
    (h : sem.take 9 = "SV_TARGET".data) : sem.take 8 ≠ "TEXCOORD".data := by
  intro h8
  have hteq : sem.take 8 = ("SV_TARGET".data).take 8 := by
    have := List.take_take 8 9 sem
    simp only [show min 8 9 = 8 from rfl] at this
    rw [← this, h]
  rw [h8] at hteq
  exact absurd hteq (by decide)

/-- The successful case of the stol model. -/
theorem stolIdentTail_some (t : List Char) (hd : headIsDigit t = true)
    (hb : stolDigits t ≤ longMaxC) : stolIdentTail t = some (stolDigits t) := by
  cases t with
  | nil => exact absurd hd (by simp [headIsDigit])
  | cons c rest =>
    have hc : c.isDigit = true := by simpa [headIsDigit] using hd
    simp [stolIdentTail, hc, hb]

/-- The throwing cases of the stol model. -/
theorem stolIdentTail_none (t : List Char)
    (h : headIsDigit t = false ∨ longMaxC < stolDigits t) : stolIdentTail t = none := by
  cases t with
  | nil => rfl
  | cons c rest =>
    rcases h with hd | hb
    · have hc : c.isDigit = false := by simpa [headIsDigit] using hd
      simp [stolIdentTail, hc]
    · by_cases hc : c.isDigit
      · simp [stolIdentTail, hc, Nat.not_le_of_lt hb]
      · simp [stolIdentTail, hc]

/-- C5 counterexample: the semantic COLOR2 is not a recognized built-in,
yet semantic_to_builtin does not set the index to its trailing digits 2;
the call returns with the index reference keeping its previous value
(here 0). -/
theorem c5_color2_index_not_set :
    semantic_to_builtin "COLOR2" 0 = some (BuiltIn.BuiltInMax, 0) ∧
    semantic_to_builtin "COLOR2" 0 ≠ some (BuiltIn.BuiltInMax, 2) := by
  constructor <;> decide

/-- C5 (amended): for every identifier semantic whose case-folded form
is not one of the recognized built-in names: when the name neither
strictly extends SV_TARGET nor TEXCOORD, the call returns BuiltInMax
with the index parameter unchanged; when it strictly extends one of the
two prefixes and the tail starts with a digit whose run value fits in
long, the call returns BuiltInMax with the index set to that value
(converted to unsigned int); when the tail does not start with a digit
(e.g. SV_TARGETX) or its value overflows long, std::stol throws and the
call does not return. -/
theorem c5_semantic_fallback (semantic : String) (index : Nat)
    (hident : (semantic.data.map Char.toUpper).all isIdentChar = true)
    (h1 : semantic.data.map Char.toUpper ≠ "SV_POSITION".data)
    (h2 : semantic.data.map Char.toUpper ≠ "SV_POINTSIZE".data)
    (h3 : semantic.data.map Char.toUpper ≠ "SV_DEPTH".data)
    (h4 : semantic.data.map Char.toUpper ≠ "VERTEXID".data)
    (h5 : semantic.data.map Char.toUpper ≠ "SV_VERTEXID".data) :
    ((¬ ((semantic.data.map Char.toUpper).length > 9 ∧
        (semantic.data.map Char.toUpper).take 9 = "SV_TARGET".data)) →
      (¬ ((semantic.data.map Char.toUpper).length > 8 ∧
        (semantic.data.map Char.toUpper).take 8 = "TEXCOORD".data)) →
      semantic_to_builtin semantic index = some (BuiltIn.BuiltInMax, index)) ∧
    ((semantic.data.map Char.toUpper).length > 9 →
      (semantic.data.map Char.toUpper).take 9 = "SV_TARGET".data →
      (headIsDigit ((semantic.data.map Char.toUpper).drop 9) = true →
        stolDigits ((semantic.data.map Char.toUpper).drop 9) ≤ longMaxC →
        semantic_to_builtin semantic index = some (BuiltIn.BuiltInMax,
          stolDigits ((semantic.data.map Char.toUpper).drop 9) % 2 ^ 32)) ∧
      (headIsDigit ((semantic.data.map Char.toUpper).drop 9) = false ∨
        longMaxC < stolDigits ((semantic.data.map Char.toUpper).drop 9) →
        semantic_to_builtin semantic index = none)) ∧
    ((semantic.data.map Char.toUpper).length > 8 →
      (semantic.data.map Char.toUpper).take 8 = "TEXCOORD".data →
      (headIsDigit ((semantic.data.map Char.toUpper).drop 8) = true →
        stolDigits ((semantic.data.map Char.toUpper).drop 8) ≤ longMaxC →
        semantic_to_builtin semantic index = some (BuiltIn.BuiltInMax,
          stolDigits ((semantic.data.map Char.toUpper).drop 8) % 2 ^ 32)) ∧
      (headIsDigit ((semantic.data.map Char.toUpper).drop 8) = false ∨
        longMaxC < stolDigits ((semantic.data.map Char.toUpper).drop 8) →
        semantic_to_builtin semantic index = none)) := by
  set sem := semantic.data.map Char.toUpper with hsem
  have hnotv : ¬ (sem = "VERTEXID".data ∨ sem = "SV_VERTEXID".data) := by
    rintro (h | h) <;> [exact h4 h; exact h5 h]
  refine ⟨?_, ?_, ?_⟩
  · intro hno9 hno8
    simp only [semantic_to_builtin, ← hsem, if_neg h1, if_neg h2, if_neg h3, if_neg hnotv,
      if_neg hno9, if_neg hno8]
  · intro hlen htk
    have hnotex : ¬ (sem.length > 8 ∧ sem.take 8 = "TEXCOORD".data) := by
      rintro ⟨-, h8⟩
      exact take8_of_take9_svtarget sem htk h8
    constructor
    · intro hd hb
      simp only [semantic_to_builtin, ← hsem, if_neg h1, if_neg h2, if_neg h3, if_neg hnotv,
        if_pos (And.intro hlen htk), stolIdentTail_some _ hd hb, Option.map_some',
        if_neg hnotex]
    · intro hthrow
      simp only [semantic_to_builtin, ← hsem, if_neg h1, if_neg h2, if_neg h3, if_neg hnotv,
        if_pos (And.intro hlen htk), stolIdentTail_none _ hthrow, Option.map_none']
  · intro hlen htk
    have hnot9 : ¬ (sem.length > 9 ∧ sem.take 9 = "SV_TARGET".data) := by
      rintro ⟨-, h9⟩
      exact take8_of_take9_svtarget sem h9 htk
    constructor
    · intro hd hb
      simp only [semantic_to_builtin, ← hsem, if_neg h1, if_neg h2, if_neg h3, if_neg hnotv,
        if_neg hnot9, if_pos (And.intro hlen htk), stolIdentTail_some _ hd hb,
        Option.map_some']
    · intro hthrow
      simp only [semantic_to_builtin, ← hsem, if_neg h1, if_neg h2, if_neg h3, if_neg hnotv,
        if_neg hnot9, if_pos (And.intro hlen htk), stolIdentTail_none _ hthrow,
        Option.map_none']

/-- Witness for c5_semantic_fallback: COLOR2 with index 7 returns
BuiltInMax with the index left at 7; SV_TARGET3 sets the index to 3;
SV_TARGETX makes std::stol throw, so nothing is returned. -/
theorem c5_semantic_fallback_witness :
    semantic_to_builtin "COLOR2" 7 = some (BuiltIn.BuiltInMax, 7) ∧
    semantic_to_builtin "SV_TARGET3" 0 = some (BuiltIn.BuiltInMax, 3) ∧
    semantic_to_builtin "SV_TARGETX" 0 = none := by
  refine ⟨?_, ?_, ?_⟩
  · exact (c5_semantic_fallback "COLOR2" 7 (by decide) (by decide) (by decide)
      (by decide) (by decide) (by decide)).1 (by decide) (by decide)
  · have h := ((c5_semantic_fallback "SV_TARGET3" 0 (by decide) (by decide) (by decide)
      (by decide) (by decide) (by decide)).2.1 (by decide) (by decide)).1
      (by decide) (by decide)
    rw [h]
    decide
  · exact ((c5_semantic_fallback "SV_TARGETX" 0 (by decide) (by decide) (by decide)
      (by decide) (by decide) (by decide)).2.1 (by decide) (by decide)).2
      (Or.inl (by decide))

/-! ## C8: duplicated swizzle components make the expression const

Embeds the vector swizzle parsing of parse_expression_unary
(effect_parser.cpp lines 1256-1303), the matrix swizzle parsing (lines
1305-1343) and the read-only check of parse_expression_assignment
(lines 1876-1878). -/

inductive SwizzleSet where
  | xyzw
  | rgba
  | stpq
  deriving DecidableEq, Repr

/-- The per-character offset and set table of the vector swizzle switch,
effect_parser.cpp lines 1268-1284. -/
def swizzleCharOffset : Char → Option (Nat × SwizzleSet)
  | 'x' => some (0, .xyzw)
  | 'y' => some (1, .xyzw)
  | 'z' => some (2, .xyzw)
  | 'w' => some (3, .xyzw)
  | 'r' => some (0, .rgba)
  | 'g' => some (1, .rgba)
  | 'b' => some (2, .rgba)
  | 'a' => some (3, .rgba)
  | 's' => some (0, .stpq)
  | 't' => some (1, .stpq)
  | 'p' => some (2, .stpq)
  | 'q' => some (3, .stpq)
  | _ => none

/-- The per-character loop of the vector swizzle, effect_parser.cpp
lines 1266-1297: map the character (error 3018 on anything else), reject
mixed sets (line 1286) and out-of-range components (line 1288), and set
the constant flag when an offset repeats (lines 1291-1296). -/
def mixedSets (prevSet : Option SwizzleSet) (s : SwizzleSet) : Bool :=
  match prevSet with
  | some p => p != s
  | none => false

def parseVecSwizzleAux (rows : Nat) :
    List Char → Option SwizzleSet → List Nat → Bool → Except Nat (List Nat × Bool)
  | [], _, offsets, constant => .ok (offsets, constant)
  | ch :: rest, prevSet, offsets, constant =>
    match swizzleCharOffset ch with
    | none => .error 3018
    | some os =>
      if mixedSets prevSet os.2 then .error 3018
      else if os.1 ≥ rows then .error 3018
      else parseVecSwizzleAux rows rest (some os.2) (offsets ++ [os.1])
        (constant || offsets.contains os.1)

/-- The vector swizzle recognizer of effect_parser.cpp lines 1256-1297:
subscripts longer than four characters are rejected (line 1260), then
the character loop runs.  Returns the offset table and the constant flag. -/
def parseVecSwizzle (subscript : List Char) (rows : Nat) : Except Nat (List Nat × Bool) :=
  if subscript.length > 4 then .error 3018
  else parseVecSwizzleAux rows subscript none [] false

/-- The chunk loop of the matrix swizzle, effect_parser.cpp lines
1316-1337: each chunk of 3 + set characters must be an underscore, an
optional m, and two digits in range (with 1-based digits when the set is
the bare form); reject out-of-range cells and more than four chunks; the
constant flag is set when a cell offset repeats (lines 1331-1336). -/
def parseMatSwizzleAux (rows cols setN : Nat) :
    List Char → Nat → List Nat → Bool → Except Nat (List Nat × Bool)
  | [], _, offsets, constant => .ok (offsets, constant)
  | ch0 :: rest, j, offsets, constant =>
    let coefficient : Nat := 1 - setN
    let chunk := ch0 :: rest
    let d1 := (chunk.getD (setN + 1) (Char.ofNat 0)).toNat
    let d2 := (chunk.getD (setN + 2) (Char.ofNat 0)).toNat
    if ch0 ≠ '_' ∨ d1 < 48 + coefficient ∨ d1 > 51 + coefficient ∨
        d2 < 48 + coefficient ∨ d2 > 51 + coefficient then .error 3018
    else if setN ≠ 0 ∧ chunk.getD 1 (Char.ofNat 0) ≠ 'm' then .error 3018
    else
      let row := d1 - 48 - coefficient
      let col := d2 - 48 - coefficient
      if row ≥ rows ∨ col ≥ cols ∨ j > 3 then .error 3018
      else
        parseMatSwizzleAux rows cols setN (chunk.drop (3 + setN)) (j + 1)
          (offsets ++ [row * 4 + col]) (constant || offsets.contains (row * 4 + col))
  termination_by chars => chars.length
  decreasing_by
    simp only [List.length_drop, List.length_cons]
    omega

/-- The matrix swizzle recognizer of effect_parser.cpp lines 1305-1337:
subscripts shorter than three characters are rejected (line 1308), the
set (an unsigned int that is 1 for the .m_RC style) is chosen by whether
the second character is m (line 1313), then the chunk loop runs. -/
def parseMatSwizzle (subscript : List Char) (rows cols : Nat) : Except Nat (List Nat × Bool) :=
  if subscript.length < 3 then .error 3018
  else parseMatSwizzleAux rows cols
    (if subscript.getD 1 (Char.ofNat 0) = 'm' then 1 else 0) subscript 0 [] false

/-- The effect of add_swizzle_access plus the qualifier update of
effect_parser.cpp lines 1300-1303 (and identically 1339-1343).
Modelled from the spec (section 4.3) for the shape change: the swizzled
expression is a vector with one component per selected offset.  The
qualifier update is the source one: when the constant flag is set or the
type is uniform, the const qualifier is added and uniform is removed. -/
def applySwizzleType (t : SpvType) (offsets : List Nat) (constant : Bool) : SpvType :=
  let t1 := { t with rows := offsets.length, cols := 1 }
  if constant || t1.quals.uniformQ then
    { t1 with quals := { uniformQ := false, constQ := true } }
  else t1

/-- The read-only test of parse_expression_assignment, effect_parser.cpp
line 1877: assignment fails with error 3025 when the left-hand side has
the const or uniform qualifier or is not an l-value. -/
def assignment_rejected_3025 (t : SpvType) (isLvalue : Bool) : Bool :=
  t.quals.constQ || t.quals.uniformQ || !isLvalue

/-- Joint step fact used by both swizzle loops: appending an offset to
the accumulator with the constant flag or-ed with a containment test
preserves the loop invariant that the flag is set or the accumulator is
duplicate-free. -/
theorem swizzle_step_invariant (offsets : List Nat) (o : Nat) (constant : Bool)
    (hinv : constant = true ∨ offsets.Nodup) :
    (constant || offsets.contains o) = true ∨ (offsets ++ [o]).Nodup := by
  rcases hinv with h | h
  · simp [h]
  · by_cases hc : offsets.contains o
    · exact Or.inl (by rw [hc, Bool.or_true])
    · right
      rw [List.nodup_append]
      refine ⟨h, List.nodup_singleton o, ?_⟩
      intro a ha hb
      rw [List.mem_singleton] at hb
      subst hb
      exact hc (by simpa using ha)

/-- Joint conclusion fact used by both swizzle loops: the iff obtained
for the extended accumulator transfers back to the original one. -/
theorem swizzle_step_iff (offsets res1 : List Nat) (o : Nat) (constant resb : Bool)
    (ext : List Nat) (hext : res1 = (offsets ++ [o]) ++ ext)
    (hiff : resb = true ↔ ((constant || offsets.contains o) = true ∨ ¬ res1.Nodup)) :
    resb = true ↔ (constant = true ∨ ¬ res1.Nodup) := by
  rw [hiff]
  constructor
  · rintro (hco | hnd)
    · rcases Bool.or_eq_true_iff.mp hco with h | h
      · exact Or.inl h
      · refine Or.inr fun hnd2 => ?_
        rw [hext, List.append_assoc] at hnd2
        obtain ⟨-, -, hdisj⟩ := List.nodup_append.mp hnd2
        exact hdisj (by simpa using h) (by simp)
    · exact Or.inr hnd
  · rintro (hc | hnd)
    · exact Or.inl (by simp [hc])
    · exact Or.inr hnd

/-- Accumulator invariant of the vector swizzle loop: on success the
produced offset list extends the accumulator, and the constant flag is
set exactly when the flag was already set or the final offsets repeat. -/
theorem parseVecSwizzleAux_constant_iff (rows : Nat) :
    ∀ (chars : List Char) (prevSet : Option SwizzleSet) (offsets : List Nat)
      (constant : Bool) (res : List Nat × Bool),
      parseVecSwizzleAux rows chars prevSet offsets constant = .ok res →
      (constant = true ∨ offsets.Nodup) →
      (∃ ext, res.1 = offsets ++ ext) ∧
        (res.2 = true ↔ (constant = true ∨ ¬ res.1.Nodup)) := by
  intro chars
  induction chars with
  | nil =>
    intro prevSet offsets constant res hok hinv
    simp only [parseVecSwizzleAux] at hok
    cases hok
    refine ⟨⟨[], by simp⟩, ?_⟩
    rcases hinv with h | h
    · simp [h]
    · simp [h]
  | cons ch rest ih =>
    intro prevSet offsets constant res hok hinv
    simp only [parseVecSwizzleAux] at hok
    cases hmap : swizzleCharOffset ch <;> simp only [hmap] at hok
    · exact absurd hok (by simp)
    case some os =>
      split at hok
      · exact absurd hok (by simp)
      · split at hok
        · exact absurd hok (by simp)
        · obtain ⟨⟨ext, hext⟩, hiff⟩ := ih (some os.2) (offsets ++ [os.1])
            (constant || offsets.contains os.1) res hok
            (swizzle_step_invariant offsets os.1 constant hinv)
          exact ⟨⟨os.1 :: ext, by simpa using hext⟩,
            swizzle_step_iff offsets res.1 os.1 constant res.2 ext hext hiff⟩

/-- Accumulator invariant of the matrix swizzle loop, by strong
induction on the remaining characters. -/
theorem parseMatSwizzleAux_constant_iff (rows cols setN : Nat) :
    ∀ (n : Nat) (chars : List Char), chars.length ≤ n →
      ∀ (j : Nat) (offsets : List Nat) (constant : Bool) (res : List Nat × Bool),
      parseMatSwizzleAux rows cols setN chars j offsets constant = .ok res →
      (constant = true ∨ offsets.Nodup) →
      (∃ ext, res.1 = offsets ++ ext) ∧
        (res.2 = true ↔ (constant = true ∨ ¬ res.1.Nodup)) := by
  intro n
  induction n with
  | zero =>
    intro chars hlen j offsets constant res hok hinv
    have hnil : chars = [] := List.length_eq_zero.mp (Nat.le_zero.mp hlen)
    subst hnil
    simp only [parseMatSwizzleAux] at hok
    cases hok
    refine ⟨⟨[], by simp⟩, ?_⟩
    rcases hinv with h | h
    · simp [h]
    · simp [h]
  | succ n ih =>
    intro chars hlen j offsets constant res hok hinv
    match chars with
    | [] =>
      simp only [parseMatSwizzleAux] at hok
      cases hok
      refine ⟨⟨[], by simp⟩, ?_⟩
      rcases hinv with h | h
      · simp [h]
      · simp [h]
    | ch0 :: rest =>
      simp only [parseMatSwizzleAux] at hok
      split at hok
      · exact absurd hok (by simp)
      · split at hok
        · exact absurd hok (by simp)
        · split at hok
          · exact absurd hok (by simp)
          · have hdrop : ((ch0 :: rest).drop (3 + setN)).length ≤ n := by
              simp only [List.length_drop, List.length_cons]
              have := Nat.le_of_succ_le_succ (by simpa using hlen)
              omega
            obtain ⟨⟨ext, hext⟩, hiff⟩ := ih _ hdrop (j + 1) _ _ res hok
              (swizzle_step_invariant offsets _ constant hinv)
            exact ⟨⟨_ :: ext, by simpa using hext⟩,
              swizzle_step_iff offsets res.1 _ constant res.2 ext hext hiff⟩

end Reshadefx

namespace Reshadefx

/-- C8: a vector or matrix swizzle in which a component offset repeats
produces an expression whose type gains the const qualifier and loses
uniform, so a subsequent assignment is rejected with error 3025; a
swizzle with pairwise-distinct components of a non-const, non-uniform
l-value passes the assignment's read-only check. -/
theorem c8_duplicate_swizzle_const (t : SpvType) (isLvalue : Bool)
    (subscript : List Char) (offsets : List Nat) (constant : Bool) :
    (parseVecSwizzle subscript t.rows = .ok (offsets, constant) →
      (¬ offsets.Nodup →
        (applySwizzleType t offsets constant).quals.constQ = true ∧
        (applySwizzleType t offsets constant).quals.uniformQ = false ∧
        assignment_rejected_3025 (applySwizzleType t offsets constant) isLvalue = true) ∧
      (offsets.Nodup → t.quals.constQ = false → t.quals.uniformQ = false →
        isLvalue = true →
        assignment_rejected_3025 (applySwizzleType t offsets constant) isLvalue = false)) ∧
    (parseMatSwizzle subscript t.rows t.cols = .ok (offsets, constant) →
      (¬ offsets.Nodup →
        (applySwizzleType t offsets constant).quals.constQ = true ∧
        (applySwizzleType t offsets constant).quals.uniformQ = false ∧
        assignment_rejected_3025 (applySwizzleType t offsets constant) isLvalue = true) ∧
      (offsets.Nodup → t.quals.constQ = false → t.quals.uniformQ = false →
        isLvalue = true →
        assignment_rejected_3025 (applySwizzleType t offsets constant) isLvalue = false)) := by
  have main : (constant = true ↔ ¬ offsets.Nodup) →
      (¬ offsets.Nodup →
        (applySwizzleType t offsets constant).quals.constQ = true ∧
        (applySwizzleType t offsets constant).quals.uniformQ = false ∧
        assignment_rejected_3025 (applySwizzleType t offsets constant) isLvalue = true) ∧
      (offsets.Nodup → t.quals.constQ = false → t.quals.uniformQ = false →
        isLvalue = true →
        assignment_rejected_3025 (applySwizzleType t offsets constant) isLvalue = false) := by
    intro hiff
    constructor
    · intro hdup
      have hc : constant = true := hiff.mpr hdup
      simp [applySwizzleType, hc, assignment_rejected_3025]
    · intro hnd hc hu hlv
      have hcf : constant = false := by
        cases hval : constant
        · rfl
        · exact absurd (hiff.mp hval) (by simpa using hnd)
      simp [applySwizzleType, hcf, hu, assignment_rejected_3025, hc, hlv]
  constructor
  · intro hp
    simp only [parseVecSwizzle] at hp
    split at hp
    · exact absurd hp (by simp)
    · have h := parseVecSwizzleAux_constant_iff t.rows subscript none [] false
        (offsets, constant) hp (Or.inr List.nodup_nil)
      exact main (by simpa using h.2)
  · intro hp
    simp only [parseMatSwizzle] at hp
    split at hp
    · exact absurd hp (by simp)
    · have h := parseMatSwizzleAux_constant_iff t.rows t.cols
        (if subscript.getD 1 (Char.ofNat 0) = 'm' then 1 else 0)
        subscript.length subscript (Nat.le_refl _) 0 [] false
        (offsets, constant) hp (Or.inr List.nodup_nil)
      exact main (by simpa using h.2)

/-- The type of a plain (non-const, non-uniform) float4 vector l-value. -/
def plainFloat4 : SpvType :=
  { base := .tfloat, rows := 4, cols := 1, arrayLength := 0,
    quals := { uniformQ := false, constQ := false } }

/-- Witness for c8_duplicate_swizzle_const: on a plain float4 l-value the
swizzle .xx (duplicate component 0) yields a const result rejected by the
assignment check, while .xy stays assignable. -/
theorem c8_duplicate_swizzle_const_witness :
    parseVecSwizzle ['x', 'x'] plainFloat4.rows = .ok ([0, 0], true) ∧
    assignment_rejected_3025 (applySwizzleType plainFloat4 [0, 0] true) true = true ∧
    parseVecSwizzle ['x', 'y'] plainFloat4.rows = .ok ([0, 1], false) ∧
    assignment_rejected_3025 (applySwizzleType plainFloat4 [0, 1] false) true = false := by
  refine ⟨by rfl, ?_, by rfl, ?_⟩
  · exact (((c8_duplicate_swizzle_const plainFloat4 true ['x', 'x'] [0, 0] true).1
      (by rfl)).1 (by decide)).2.2
  · exact ((c8_duplicate_swizzle_const plainFloat4 true ['x', 'y'] [0, 1] false).1
      (by rfl)).2 (by decide) (by decide) (by decide) (by decide)

/-! ## C7: recursive calls are rejected

Embeds the call-emission tail of parse_expression_unary,
effect_parser.cpp lines 1116-1166: after overload resolution, a symbol
whose opcode is not OpFunctionCall is an intrinsic and emits its opcode;
otherwise the callee's function-info pointer is compared against the
function currently being defined (line 1156) and error 3500 is raised on
a match before any OpFunctionCall is emitted. -/

inductive CInstr where
  | OpFunctionCall (callee : Nat)
  | OpIntrinsic (op : Nat)
  deriving DecidableEq, Repr

/-- The fields of the resolved call symbol that lines 1116-1166 read:
the definition id, whether symbol.op is OpFunctionCall, the identity
(arena index standing for the spv_function_info pointer) of
symbol.function, and the intrinsic opcode otherwise. -/
structure FnCallSymbol where
  id : Nat
  opIsFunctionCall : Bool
  function : Option Nat
  intrinsicOp : Nat
  deriving DecidableEq, Repr

/-- Whether the resolved symbol is the function currently being defined:
the source compares the info pointer stored in the symbol with
the entry of the function arena indexed by _current_function, guarded by
_current_function != SIZE_MAX (modelled as Option). -/
def resolvesToCurrent (currentFunction : Option Nat) (sym : FnCallSymbol) : Bool :=
  match currentFunction, sym.function with
  | some i, some j => i == j
  | _, _ => false

/-- Lines 1116-1166 of parse_expression_unary (with the sincos/rcp/
saturate magic ids out of scope): intrinsic symbols emit their opcode;
function symbols first run the recursion check of lines 1155-1157 and
then emit OpFunctionCall with the callee id.  Returns the section, the
error list and the success flag. -/
def emit_call (currentFunction : Option Nat) (sym : FnCallSymbol)
    (sec : List CInstr) (errors : List Nat) : List CInstr × List Nat × Bool :=
  if sym.opIsFunctionCall = false then
    (sec ++ [.OpIntrinsic sym.intrinsicOp], errors, true)
  else if resolvesToCurrent currentFunction sym then
    (sec, errors ++ [3500], false)
  else
    (sec ++ [.OpFunctionCall sym.id], errors, true)

end Reshadefx

namespace Reshadefx

/-- C7: a call expression that resolves to the function currently being
defined raises error 3500 and fails without emitting anything; any other
resolved function call succeeds by appending exactly one OpFunctionCall,
so no OpFunctionCall to the enclosing function is ever emitted into its
own body. -/
theorem c7_recursion_rejected (cur : Option Nat) (sym : FnCallSymbol)
    (sec : List CInstr) (errs : List Nat)
    (hop : sym.opIsFunctionCall = true) :
    (resolvesToCurrent cur sym = true →
      emit_call cur sym sec errs = (sec, errs ++ [3500], false)) ∧
    (resolvesToCurrent cur sym = false →
      emit_call cur sym sec errs = (sec ++ [.OpFunctionCall sym.id], errs, true)) ∧
    (∀ callee, CInstr.OpFunctionCall callee ∈ (emit_call cur sym sec errs).1 →
      CInstr.OpFunctionCall callee ∉ sec →
      resolvesToCurrent cur sym = false) := by
  refine ⟨?_, ?_, ?_⟩
  · intro hrec
    simp [emit_call, hop, hrec]
  · intro hrec
    simp [emit_call, hop, hrec]
  · intro callee hmem hnew
    cases hrec : resolvesToCurrent cur sym
    · rfl
    · simp [emit_call, hop, hrec] at hmem
      exact absurd hmem hnew

/-- Witness for c7_recursion_rejected: inside function 0, a call symbol
resolving back to function 0 is rejected with error 3500 and emits
nothing. -/
theorem c7_recursion_rejected_witness :
    emit_call (some 0)
      { id := 7, opIsFunctionCall := true, function := some 0, intrinsicOp := 0 }
      [] [] = ([], [3500], false) :=
  (c7_recursion_rejected (some 0)
    { id := 7, opIsFunctionCall := true, function := some 0, intrinsicOp := 0 }
    [] [] (by decide)).1 (by decide)

/-! ## Statement machine: C6, C9, C10

Embeds the control-flow statement handling of parse_statement
(effect_parser.cpp lines 2034-2037 and 2472-2552), the switch lowering
(lines 2121-2213), and the statement loop of parse_statement_block
(lines 2592-2622).  Statements are given in AST form, so the purely
syntactic token tests (braces, semicolons, attributes) are taken to have
their well-formed outcome; symbol-table scope handling is omitted as it
does not influence the embedded fields.  The basic-block helpers live in
the IR builder outside this source tree and are modelled from spec
section 4.5. -/

inductive Instr where
  | OpLabel (id : Nat)
  | OpBranch (target : Nat)
  | OpReturn
  | OpKill
  | OpSelectionMerge (merge : Nat) (control : Nat)
  | OpSwitch (selector : Nat) (defaultLabel : Nat) (caseLiteralAndLabels : List Nat)
  | OpSwitchHeaderOnly (selector : Nat)
  deriving DecidableEq, Repr

/-- The parser fields that the statement paths touch: the open block
(0 = none), the id allocator, the break/continue target stacks (top of
the C++ vector is the head here) and the diagnostics. -/
structure CGState where
  currentBlock : Nat
  nextId : Nat
  breakTargets : List Nat
  continueTargets : List Nat
  errors : List Nat
  warnings : List Nat
  deriving DecidableEq, Repr

def CGState.addError (st : CGState) (code : Nat) : CGState :=
  { st with errors := st.errors ++ [code] }

def CGState.addWarning (st : CGState) (code : Nat) : CGState :=
  { st with warnings := st.warnings ++ [code] }

def CGState.makeId (st : CGState) : Nat × CGState :=
  (st.nextId, { st with nextId := st.nextId + 1 })

/-- Modelled from the spec (section 4.5): entering a block emits its
label and makes it the current block. -/
def enter_block (sec : List Instr) (st : CGState) (id : Nat) : List Instr × CGState :=
  (sec ++ [.OpLabel id], { st with currentBlock := id })

/-- Modelled from the spec (section 4.5): leaving a block emits exactly
one OpBranch terminator and clears the current block; when no block is
open (a preceding statement already terminated it) nothing is emitted. -/
def leave_block_and_branch (sec : List Instr) (st : CGState) (target : Nat) :
    List Instr × CGState :=
  if st.currentBlock == 0 then (sec, st)
  else (sec ++ [.OpBranch target], { st with currentBlock := 0 })

/-- Modelled from the spec (section 4.5): same for the OpReturn
terminator (the void form, value id 0). -/
def leave_block_and_return (sec : List Instr) (st : CGState) : List Instr × CGState :=
  if st.currentBlock == 0 then (sec, st)
  else (sec ++ [.OpReturn], { st with currentBlock := 0 })

/-- Modelled from the spec (section 4.5): same for the OpKill
terminator. -/
def leave_block_and_kill (sec : List Instr) (st : CGState) : List Instr × CGState :=
  if st.currentBlock == 0 then (sec, st)
  else (sec ++ [.OpKill], { st with currentBlock := 0 })

/-- A parsed expression as the statement layer sees it: its type, its
constness, the 32-bit lanes of its constant union, and the SSA id that
access_chain_load yields for it. -/
structure MExpr where
  type : SpvType
  isConstant : Bool
  lanes : List Nat
  loadId : Nat
  deriving DecidableEq, Repr

inductive SwitchLabel where
  | caseLabel (e : MExpr)
  | defaultLabel
  deriving DecidableEq, Repr

/-- Statements in AST form.  sexpr stands for an expression statement
(no control-flow effect at this layer); sreturn is a plain return in a
void function. -/
inductive Stmt where
  | sexpr
  | sbreak
  | scontinue
  | sdiscard
  | sreturn
  | sswitch (selector : MExpr) (body : List (List SwitchLabel × Stmt))
  deriving Repr

/-- The label-group processing of the switch body, effect_parser.cpp
lines 2173-2195: each case expression must be a scalar constant (error
3020 otherwise, a non-numeric case expression); the literal recorded for
the OpSwitch operand list is constant.as_uint[0], the raw first 32-bit
lane; a default label redirects the default target to the current case
block. -/
def processLabels (st : CGState) (currentCaseBlock : Nat) :
    List SwitchLabel → Nat → List Nat → Nat →
    (CGState × Nat × List Nat × Nat × Bool)
  | [], defaultLabel, cases, numLabels => (st, defaultLabel, cases, numLabels, true)
  | .caseLabel e :: rest, defaultLabel, cases, numLabels =>
    if !e.type.isScalar || !e.isConstant then
      (st.addError 3020, defaultLabel, cases, numLabels, false)
    else
      processLabels st currentCaseBlock rest defaultLabel
        (cases ++ [e.lanes.headD 0, currentCaseBlock]) (numLabels + 1)
  | .defaultLabel :: rest, _, cases, numLabels =>
    processLabels st currentCaseBlock rest currentCaseBlock cases (numLabels + 1)

mutual

/-- parse_statement, effect_parser.cpp lines 2034-2552, restricted to
the statement forms of the AST: the leading check that a basic block is
open (lines 2036-2037, error 3000), break (lines 2473-2482, error 3518
on an empty target stack, otherwise one OpBranch to the top target),
continue (lines 2486-2495, error 3519), return in a void function
(lines 2536-2541), discard (lines 2546-2551) and switch.  Fuel only
bounds the switch-body recursion depth. -/
def parse_statement : Nat → List Instr → CGState → Stmt → List Instr × CGState × Bool
  | 0, sec, st, _ => (sec, st, false)
  | fuel + 1, sec, st, s =>
    if st.currentBlock == 0 then (sec, st.addError 3000, false)
    else
      match s with
      | .sexpr => (sec, st, true)
      | .sbreak =>
        match st.breakTargets with
        | [] => (sec, st.addError 3518, false)
        | t :: _ =>
          let p := leave_block_and_branch sec st t
          (p.1, p.2, true)
      | .scontinue =>
        match st.continueTargets with
        | [] => (sec, st.addError 3519, false)
        | t :: _ =>
          let p := leave_block_and_branch sec st t
          (p.1, p.2, true)
      | .sreturn =>
        let p := leave_block_and_return sec st
        (p.1, p.2, true)
      | .sdiscard =>
        let p := leave_block_and_kill sec st
        (p.1, p.2, true)
      | .sswitch selector body => parse_switch fuel sec st selector body

/-- The switch lowering of parse_statement, effect_parser.cpp lines
2121-2213: allocate the merge label (the initial default target), demand
a scalar selector (error 3019), cast the selector to int and load it,
clear the current block (line 2139), emit OpSelectionMerge and the yet
unpatched OpSwitch, push the merge label on the break-target stack,
parse the body into a separate buffer, then patch the OpSwitch with the
default label and the collected (literal, label) pairs, append the body
buffer and open the merge block.  On a body failure the section keeps
the unpatched switch header, as in the source's early returns. -/
def parse_switch : Nat → List Instr → CGState → MExpr →
    List (List SwitchLabel × Stmt) → List Instr × CGState × Bool
  | 0, sec, st, _, _ => (sec, st, false)
  | fuel + 1, sec, st, selector, body =>
    let p := st.makeId
    let mergeLabel := p.1
    let st := p.2
    if !selector.type.isScalar then (sec, st.addError 3019, false)
    else
      let selectorValue := selector.loadId
      let st := { st with currentBlock := 0 }
      let st := { st with breakTargets := mergeLabel :: st.breakTargets }
      let r := parse_switch_body fuel [] st 0 mergeLabel [] 0 body
      match r with
      | (bodyBlock, st1, defaultLabel, cases, numLabels, ok) =>
        let st2 := { st1 with breakTargets := st1.breakTargets.tail }
        if !ok then
          (sec ++ [.OpSelectionMerge mergeLabel 0, .OpSwitchHeaderOnly selectorValue],
            st2, false)
        else
          let st3 := if numLabels == 0 then st2.addWarning 5002 else st2
          let sec2 := sec ++ [.OpSelectionMerge mergeLabel 0,
            .OpSwitch selectorValue defaultLabel cases] ++ bodyBlock
          let q := enter_block sec2 st3 mergeLabel
          (q.1, q.2, true)

/-- The switch-body loop, effect_parser.cpp lines 2154-2199: when a
case/default label group starts, allocate a fresh case block, branch the
still-open previous case into it (fall-through, lines 2167-2168) and
enter it; process the label group; then parse the group's statement into
the body buffer.  A statement with no preceding label group runs with
whatever block is current, which right after the switch header is none. -/
def parse_switch_body : Nat → List Instr → CGState → Nat → Nat → List Nat → Nat →
    List (List SwitchLabel × Stmt) →
    List Instr × CGState × Nat × List Nat × Nat × Bool
  | 0, bodyBlock, st, _, defaultLabel, cases, numLabels, _ =>
    (bodyBlock, st, defaultLabel, cases, numLabels, false)
  | _ + 1, bodyBlock, st, _, defaultLabel, cases, numLabels, [] =>
    (bodyBlock, st, defaultLabel, cases, numLabels, true)
  | fuel + 1, bodyBlock, st, currentCaseBlock, defaultLabel, cases, numLabels,
      (labels, stmt) :: rest =>
    let step :=
      if labels.isEmpty then (bodyBlock, st, currentCaseBlock)
      else
        let p := st.makeId
        let cb := p.1
        let st := p.2
        let q := if numLabels != 0 then leave_block_and_branch bodyBlock st cb
          else (bodyBlock, st)
        let r := enter_block q.1 q.2 cb
        (r.1, r.2, cb)
    match step with
    | (bodyBlock1, st1, cb) =>
      match processLabels st1 cb labels defaultLabel cases numLabels with
      | (st2, defaultLabel2, cases2, numLabels2, false) =>
        (bodyBlock1, st2, defaultLabel2, cases2, numLabels2, false)
      | (st2, defaultLabel2, cases2, numLabels2, true) =>
        match parse_statement fuel bodyBlock1 st2 stmt with
        | (bodyBlock2, st3, false) =>
          (bodyBlock2, st3, defaultLabel2, cases2, numLabels2, false)
        | (bodyBlock2, st3, true) =>
          parse_switch_body fuel bodyBlock2 st3 cb defaultLabel2 cases2 numLabels2 rest

end

/-- The statement loop of parse_statement_block, effect_parser.cpp lines
2592-2622: statements run in order; the first failure aborts the block
(the source then only skips tokens to resynchronize). -/
def parse_statement_list : Nat → List Instr → CGState → List Stmt →
    List Instr × CGState × Bool
  | 0, sec, st, _ => (sec, st, false)
  | _ + 1, sec, st, [] => (sec, st, true)
  | fuel + 1, sec, st, s :: rest =>
    match parse_statement fuel sec st s with
    | (sec1, st1, false) => (sec1, st1, false)
    | (sec1, st1, true) => parse_statement_list fuel sec1 st1 rest

end Reshadefx

namespace Reshadefx

/-- C6: a break (continue) statement with an empty break (continue)
target stack fails with error 3518 (3519) and emits nothing; with a
non-empty stack it appends exactly one OpBranch to the top-of-stack
label and closes the current basic block. -/
theorem c6_break_continue_targets (fuel : Nat) (sec : List Instr) (st : CGState)
    (hopen : st.currentBlock ≠ 0) :
    (st.breakTargets = [] →
      parse_statement (fuel + 1) sec st .sbreak = (sec, st.addError 3518, false)) ∧
    (∀ t rest, st.breakTargets = t :: rest →
      parse_statement (fuel + 1) sec st .sbreak =
        (sec ++ [.OpBranch t], { st with currentBlock := 0 }, true)) ∧
    (st.continueTargets = [] →
      parse_statement (fuel + 1) sec st .scontinue = (sec, st.addError 3519, false)) ∧
    (∀ t rest, st.continueTargets = t :: rest →
      parse_statement (fuel + 1) sec st .scontinue =
        (sec ++ [.OpBranch t], { st with currentBlock := 0 }, true)) := by
  have hopen2 : (st.currentBlock == 0) = false := by simpa using hopen
  refine ⟨?_, ?_, ?_, ?_⟩
  · intro hempty
    simp [parse_statement, hopen2, hempty]
  · intro t rest hstack
    simp [parse_statement, hopen2, hstack, leave_block_and_branch, hopen]
  · intro hempty
    simp [parse_statement, hopen2, hempty]
  · intro t rest hstack
    simp [parse_statement, hopen2, hstack, leave_block_and_branch, hopen]

/-- A concrete in-function state with an open block 5 and loop targets. -/
def exampleLoopState : CGState :=
  { currentBlock := 5, nextId := 10, breakTargets := [9], continueTargets := [8],
    errors := [], warnings := [] }

/-- Witness for c6_break_continue_targets: from an open block with break
target 9 on top, break emits exactly OpBranch 9 and closes the
block; from the same state with the stacks emptied, break raises 3518. -/
theorem c6_break_continue_targets_witness :
    parse_statement 1 [] exampleLoopState .sbreak =
      ([.OpBranch 9], { exampleLoopState with currentBlock := 0 }, true) ∧
    parse_statement 1 []
      { exampleLoopState with breakTargets := [] } .sbreak =
      ([], ({ exampleLoopState with breakTargets := [] } : CGState).addError 3518,
        false) :=
  ⟨(c6_break_continue_targets 0 [] exampleLoopState (by decide)).2.1 9 [] rfl,
   (c6_break_continue_targets 0 [] { exampleLoopState with breakTargets := [] }
      (by decide)).1 rfl⟩

/-- C9: parse_statement entered with no open basic block reports error
3000 and fails; return, discard, and break/continue with a target all
close the block on success, so in a statement block the statement
following any of them fails with error 3000 instead of being skipped;
the same happens to a switch-body statement before any case label,
since the switch header closes the block. -/
theorem c9_error_3000_after_terminator (fuel : Nat) (sec : List Instr) (st : CGState) :
    (∀ s, st.currentBlock = 0 →
      parse_statement (fuel + 1) sec st s = (sec, st.addError 3000, false)) ∧
    (st.currentBlock ≠ 0 →
      (parse_statement (fuel + 1) sec st .sreturn).2.1.currentBlock = 0 ∧
      (parse_statement (fuel + 1) sec st .sdiscard).2.1.currentBlock = 0 ∧
      (∀ t rest, st.breakTargets = t :: rest →
        (parse_statement (fuel + 1) sec st .sbreak).2.1.currentBlock = 0) ∧
      (∀ t rest, st.continueTargets = t :: rest →
        (parse_statement (fuel + 1) sec st .scontinue).2.1.currentBlock = 0)) ∧
    (∀ t s2 rest sec1 st1,
      parse_statement (fuel + 2) sec st t = (sec1, st1, true) →
      st1.currentBlock = 0 →
      parse_statement_list (fuel + 3) sec st (t :: s2 :: rest) =
        (sec1, st1.addError 3000, false)) ∧
    (∀ sel s2 rest, st.currentBlock ≠ 0 → sel.type.isScalar = true →
      (parse_statement (fuel + 4) sec st (.sswitch sel (([], s2) :: rest))).2.2
          = false ∧
      (parse_statement (fuel + 4) sec st (.sswitch sel (([], s2) :: rest))).2.1.errors
          = st.errors ++ [3000]) := by
  refine ⟨?_, ?_, ?_, ?_⟩
  · intro s hclosed
    have h2 : (st.currentBlock == 0) = true := by simpa using hclosed
    cases s <;> simp [parse_statement, h2]
  · intro hopen
    have h2 : (st.currentBlock == 0) = false := by simpa using hopen
    refine ⟨?_, ?_, ?_, ?_⟩
    · simp [parse_statement, h2, leave_block_and_return, hopen]
    · simp [parse_statement, h2, leave_block_and_kill, hopen]
    · intro t rest hstack
      simp [parse_statement, h2, hstack, leave_block_and_branch, hopen]
    · intro t rest hstack
      simp [parse_statement, h2, hstack, leave_block_and_branch, hopen]
  · intro t s2 rest sec1 st1 hfirst hclosed
    have h1 : (st1.currentBlock == 0) = true := by simpa using hclosed
    have hsecond : parse_statement (fuel + 1) sec1 st1 s2
        = (sec1, st1.addError 3000, false) := by
      cases s2 <;> simp [parse_statement, h1]
    simp only [parse_statement_list, hfirst, hsecond]
  · intro sel s2 rest hopen hscalar
    have h2 : (st.currentBlock == 0) = false := by simpa using hopen
    simp [parse_statement, parse_switch, parse_switch_body, processLabels,
      h2, hscalar, CGState.makeId, CGState.addError]

/-- Witness for c9_error_3000_after_terminator: in a block whose first
statement is a plain return, the expression statement after it reports
error 3000 and the block fails. -/
theorem c9_error_3000_after_terminator_witness :
    parse_statement_list 3 [] exampleLoopState [.sreturn, .sexpr] =
      ([.OpReturn],
        ({ exampleLoopState with currentBlock := 0 } : CGState).addError 3000,
        false) :=
  (c9_error_3000_after_terminator 0 [] exampleLoopState).2.2.1 .sreturn .sexpr []
    [.OpReturn] { exampleLoopState with currentBlock := 0 } (by decide) (by decide)

/-- The type of a scalar float expression. -/
def floatScalarType : SpvType :=
  { base := .tfloat, rows := 1, cols := 1, arrayLength := 0,
    quals := { uniformQ := false, constQ := false } }

end Reshadefx

namespace Reshadefx

/-- C10: a case label expression is only checked to be a scalar constant
(error 3020 otherwise), not an integral one, and the literal recorded in
the OpSwitch operand list is the constant's raw first 32-bit lane.  A
switch whose single case carries any scalar constant label (a float-typed
one included) compiles, with the OpSwitch holding the lane bits verbatim;
for the float constant 1.5 those bits are 0x3FC00000 (which decodes to
3/2 and differs from int(1.5) = 1). -/
theorem c10_case_label_raw_bits (fuel : Nat) (sec : List Instr) (st : CGState)
    (sel e bad : MExpr)
    (hopen : st.currentBlock ≠ 0)
    (hselok : sel.type.isScalar = true)
    (hescalar : e.type.isScalar = true)
    (heconst : e.isConstant = true)
    (hbad : bad.type.isScalar = false ∨ bad.isConstant = false) :
    parse_statement (fuel + 4) sec st (.sswitch sel [([.caseLabel e], .sbreak)]) =
      (sec ++ [.OpSelectionMerge st.nextId 0,
        .OpSwitch sel.loadId st.nextId [e.lanes.headD 0, st.nextId + 1],
        .OpLabel (st.nextId + 1), .OpBranch st.nextId, .OpLabel st.nextId],
       { st with nextId := st.nextId + 2, currentBlock := st.nextId }, true) ∧
    ((parse_statement (fuel + 4) sec st (.sswitch sel [([.caseLabel bad], .sbreak)])).2.2
        = false ∧
     (parse_statement (fuel + 4) sec st
        (.sswitch sel [([.caseLabel bad], .sbreak)])).2.1.errors
        = st.errors ++ [3020]) ∧
    f32value 0x3FC00000 = 3 / 2 ∧ (0x3FC00000 : Nat) ≠ 1 := by
  have h2 : (st.currentBlock == 0) = false := by simpa using hopen
  refine ⟨?_, ?_, ?_, by norm_num⟩
  · simp [parse_statement, parse_switch, parse_switch_body, processLabels,
      h2, hselok, hescalar, heconst, CGState.makeId, leave_block_and_branch,
      enter_block, CGState.addWarning]
  · have hbad2 : (!bad.type.isScalar || !bad.isConstant) = true := by
      rcases hbad with h | h <;> simp [h]
    simp [parse_statement, parse_switch, parse_switch_body, processLabels,
      h2, hselok, hbad2, CGState.makeId, leave_block_and_branch,
      enter_block, CGState.addError]
  · show (if f32sign 0x3FC00000 == 1 then (-1 : ℚ) else 1) *
      (1 + (f32mantissa 0x3FC00000 : ℚ) / 2 ^ 23) *
      2 ^ ((f32exponent 0x3FC00000 : ℤ) - 127) = 3 / 2
    norm_num [f32sign, f32mantissa, f32exponent]

/-- The float scalar constant 1.5 as the parser's constant union holds
it: one 32-bit lane with the IEEE-754 bits of 1.5f. -/
def floatConst15 : MExpr :=
  { type := floatScalarType, isConstant := true, lanes := [0x3FC00000], loadId := 0 }

/-- A non-scalar (float4-typed) constant, rejected as a case label. -/
def vectorConstExample : MExpr :=
  { type := plainFloat4, isConstant := true, lanes := [1, 2, 3, 4], loadId := 0 }

/-- The type of a scalar int expression. -/
def intScalarType : SpvType :=
  { base := .tint, rows := 1, cols := 1, arrayLength := 0,
    quals := { uniformQ := false, constQ := false } }

/-- A scalar int selector expression loaded as id 42. -/
def intSelectorExample : MExpr :=
  { type := intScalarType, isConstant := false, lanes := [], loadId := 42 }

/-- Witness for c10_case_label_raw_bits: switching on an int selector
with the single label case 1.5 succeeds and the OpSwitch records the
literal 0x3FC00000. -/
theorem c10_case_label_raw_bits_witness :
    parse_statement 4 [] exampleLoopState
      (.sswitch intSelectorExample [([.caseLabel floatConst15], .sbreak)]) =
      ([.OpSelectionMerge 10 0, .OpSwitch 42 10 [0x3FC00000, 11],
        .OpLabel 11, .OpBranch 10, .OpLabel 10],
       { exampleLoopState with nextId := 12, currentBlock := 10 }, true) :=
  (c10_case_label_raw_bits 0 [] exampleLoopState intSelectorExample floatConst15
    vectorConstExample (by decide) (by decide) (by decide) (by decide)
    (Or.inl (by decide))).1

/-! ## Token machine: C1 and C2

Embeds the driver run (effect_parser.cpp lines 45-79), the token helpers
(lines 128-163), parse_top_level (lines 1953-2031) and the technique and
pass parsing (lines 3122-3218) at the token level.  The token alphabet
covers what those paths consume; constructs that leave it (namespaces,
structs, declarations, the non-shader pass states of lines 3456-3545 and
the entry-point synthesis of lines 3219-3455) are marked outOfScope by
the model instead of being approximated, so the theorems below evaluate
the model only on inputs that never reach them. -/

inductive Tok where
  | ident (s : String)
  | kwPass
  | kwTechnique
  | lbrace
  | rbrace
  | semicolon
  | equal
  | colonColon
  | eof
  deriving DecidableEq, Repr

/-- The parser's token state: the upcoming stream (head = _token_next,
exhaustion yields end_of_file like the lexer does), the last consumed
token (_token) and the diagnostics buffer (error codes only). -/
structure PState where
  tokens : List Tok
  tok : Tok
  errors : List Nat
  deriving DecidableEq, Repr

def headTok (st : PState) : Tok := st.tokens.headD .eof

/-- peek, effect_parser.cpp lines 128-131. -/
def peek (st : PState) (t : Tok) : Bool := headTok st == t

/-- consume, lines 132-136. -/
def consume (st : PState) : PState :=
  { st with tok := headTok st, tokens := st.tokens.tail }

/-- error, lines 83-97 (only the code is tracked). -/
def errorAt (st : PState) (code : Nat) : PState :=
  { st with errors := st.errors ++ [code] }

/-- accept, lines 144-153. -/
def accept (st : PState) (t : Tok) : PState × Bool :=
  if peek st t then (consume st, true) else (st, false)

/-- expect, lines 154-163: accept or report error 3000. -/
def expect (st : PState) (t : Tok) : PState × Bool :=
  if peek st t then (consume st, true) else (errorAt st 3000, false)

def isIdent : Tok → Bool
  | .ident _ => true
  | _ => false

def identOf : Tok → String
  | .ident s => s
  | _ => ""

/-- accept for the identifier token class (any literal). -/
def acceptIdent (st : PState) : PState × Bool :=
  if isIdent (headTok st) then (consume st, true) else (st, false)

/-- expect for the identifier token class. -/
def expectIdent (st : PState) : PState × Bool :=
  if isIdent (headTok st) then (consume st, true) else (errorAt st 3000, false)

/-- The loop of consume_until, structurally recursive on a bound that
the caller sets to the stream length (each iteration consumes one token,
and an empty stream reads as end_of_file, so the bound is never hit). -/
def consume_until_go : Nat → PState → Tok → PState
  | 0, st, _ => st
  | n + 1, st, t =>
    if peek st t then consume st
    else if peek st .eof then st
    else consume_until_go n (consume st) t

/-- consume_until, lines 137-143: consume tokens until the wanted one is
accepted or the stream ends. -/
def consume_until (st : PState) (t : Tok) : PState :=
  consume_until_go st.tokens.length st t

inductive SymKind where
  | functionSym
  | textureSym
  | variableSym
  | structSym
  deriving DecidableEq, Repr

/-- A symbol as the technique paths read it: its id (0xFFFFFFFF for the
dummies inserted during error recovery) and its kind. -/
structure MSym where
  id : Nat
  kind : SymKind
  deriving DecidableEq, Repr

/-- Modelled from the spec (section 4.2): find_symbol looks the
(::-joined) name up in the symbol table built by the declarations; the
model takes the table as a function.  A missing entry is the zero
symbol of the source. -/
def SymTab : Type := String → Option MSym

/-- The results of a modelled parse step: a value, or the marker that
the input reached a code path outside the modelled slice. -/
inductive MRes (α : Type) where
  | inScope (val : α)
  | outOfScope
  deriving Repr

/-- The identifier chain loop of parse_technique_pass, effect_parser.cpp
lines 3184-3191 (accept/expect unfolded for the recursion): every
further :: must be followed by an identifier, which is appended to the
qualified name. -/
def identChainGo : Nat → PState → String → PState × Option String
  | 0, st, identifier => (st, some identifier)
  | n + 1, st, identifier =>
    if peek st .colonColon then
      if isIdent (headTok (consume st)) then
        identChainGo n (consume (consume st))
          (identifier ++ "::" ++ identOf (consume (consume st)).tok)
      else (errorAt (consume st) 3000, none)
    else (st, some identifier)

def identChain (st : PState) (identifier : String) : PState × Option String :=
  identChainGo st.tokens.length st identifier

/-- parse_technique_pass, effect_parser.cpp lines 3145-3218, on the
modelled token alphabet: expect pass, optional name, expect the brace;
an empty state list returns through expect of the closing brace; a pass
state must be an identifier followed by =; the VertexShader/PixelShader
and RenderTarget states look the (optionally ::-qualified) name up and
fail with 3004 (undeclared), 3020 (wrong kind) or silently for an
0xFFFFFFFF dummy, each consuming up to the closing brace; the successful
shader/texture assignments (entry-point synthesis, lines 3219-3455) and
the remaining pass states (lines 3468-3545) are outside the slice. -/
def parse_technique_pass (tab : SymTab) (st : PState) : MRes (PState × Bool) :=
  let p1 := expect st .kwPass
  if !p1.2 then .inScope (p1.1, false) else
  let p2 := acceptIdent p1.1
  let p3 := expect p2.1 .lbrace
  if !p3.2 then .inScope (p3.1, false) else
  let st := p3.1
  if peek st .rbrace then
    let p4 := expect st .rbrace
    .inScope (p4.1, p4.2)
  else
    let p5 := expectIdent st
    if !p5.2 then .inScope (consume_until p5.1 .rbrace, false) else
    let state := identOf p5.1.tok
    let p6 := expect p5.1 .equal
    if !p6.2 then .inScope (consume_until p6.1 .rbrace, false) else
    let st := p6.1
    let isShaderState := state == "VertexShader" || state == "PixelShader"
    let isTextureState := "RenderTarget".isPrefixOf state &&
      (state.length == 12 || (state.length > 12 &&
        48 ≤ (state.data.getD 12 (Char.ofNat 0)).toNat &&
        (state.data.getD 12 (Char.ofNat 0)).toNat < 56))
    if isShaderState || isTextureState then
      let p7 := accept st .colonColon
      let p8 := expectIdent p7.1
      if !p8.2 then .inScope (consume_until p8.1 .rbrace, false) else
      match identChain p8.1 (identOf p8.1.tok) with
      | (st, none) => .inScope (consume_until st .rbrace, false)
      | (st, some identifier) =>
        match tab identifier with
        | none => .inScope (consume_until (errorAt st 3004) .rbrace, false)
        | some sym =>
          if isShaderState then
            if sym.kind != .functionSym then
              .inScope (consume_until (errorAt st 3020) .rbrace, false)
            else if sym.id == 0xFFFFFFFF then
              .inScope (consume_until st .rbrace, false)
            else .outOfScope
          else
            if sym.kind != .textureSym then
              .inScope (consume_until (errorAt st 3020) .rbrace, false)
            else .outOfScope
    else .outOfScope

/-- The pass loop of parse_technique, effect_parser.cpp lines 3135-3143:
a successfully parsed pass is appended and the loop continues; a failed
pass is skipped without failing the technique when the next token is
pass again (the recovery of line 3139); otherwise tokens are consumed up
to the closing brace and the technique fails.  The loop ends by
expecting the closing brace. -/
def parse_technique_loop (tab : SymTab) : Nat → PState → MRes (PState × Bool)
  | 0, _ => .outOfScope
  | fuel + 1, st =>
    if peek st .rbrace then
      let p := expect st .rbrace
      .inScope (p.1, p.2)
    else
      match parse_technique_pass tab st with
      | .outOfScope => .outOfScope
      | .inScope (st1, ok) =>
        if ok then parse_technique_loop tab fuel st1
        else if peek st1 .kwPass then parse_technique_loop tab fuel st1
        else .inScope (consume_until st1 .rbrace, false)

/-- parse_technique, effect_parser.cpp lines 3122-3143: expect the name;
parse_annotations returns immediately since the modelled alphabet has no
annotation opener (lines 1920-1921); expect the brace and run the pass
loop. -/
def parse_technique (tab : SymTab) (fuel : Nat) (st : PState) : MRes (PState × Bool) :=
  let p1 := expectIdent st
  if !p1.2 then .inScope (p1.1, false) else
  let p2 := expect p1.1 .lbrace
  if !p2.2 then .inScope (p2.1, false) else
  parse_technique_loop tab fuel p2.1

/-- parse_top_level, effect_parser.cpp lines 1953-2031, on the modelled
alphabet: the namespace and struct keywords do not occur, so their
accepts fail; a technique keyword parses a technique; a type can only
start with an identifier naming a struct symbol (accept_type_class lines
171-185), which leads to the declaration paths outside the slice; a
stray semicolon is ignored (line 2024); anything else is consumed and
reported as error 3000 (lines 2026-2028). -/
def parse_top_level (tab : SymTab) (fuel : Nat) (st : PState) : MRes (PState × Bool) :=
  let p1 := accept st .kwTechnique
  if p1.2 then parse_technique tab fuel p1.1
  else if isIdent (headTok st) &&
      (match tab (identOf (headTok st)) with
       | some sym => sym.kind == .structSym
       | none => false) then .outOfScope
  else
    let p2 := accept st .semicolon
    if p2.2 then .inScope (p2.1, true)
    else
      let st3 := consume p2.1
      .inScope (errorAt st3 3000, false)

/-- The driver loop of run, effect_parser.cpp lines 54-56: parse top
level constructs until end_of_file, clearing the success flag on each
failure but continuing. -/
def run_loop (tab : SymTab) : Nat → PState → Bool → MRes (PState × Bool)
  | 0, _, _ => .outOfScope
  | fuel + 1, st, success =>
    if peek st .eof then .inScope (st, success)
    else
      match parse_top_level tab fuel st with
      | .outOfScope => .outOfScope
      | .inScope (st1, ok) => run_loop tab fuel st1 (success && ok)

/-- The observable outcome of run: its return value, the diagnostics
buffer, and whether write_module was invoked. -/
structure RunResult where
  success : Bool
  errors : List Nat
  wroteModule : Bool
  deriving DecidableEq, Repr

/-- run, effect_parser.cpp lines 45-79: lex and consume the first token
(modelled by starting with the stream as lookahead), run the top-level
loop, build the global uniform block only when numeric uniforms exist
(none are expressible in this alphabet, so _global_ubo_type stays 0),
then invoke write_module unconditionally (lines 75-76) and return the
success flag. -/
def run_model (tab : SymTab) (fuel : Nat) (tokens : List Tok) : MRes RunResult :=
  let st : PState := { tokens := tokens, tok := .eof, errors := [] }
  match run_loop tab fuel st true with
  | .outOfScope => .outOfScope
  | .inScope (st1, success) =>
    .inScope { success := success, errors := st1.errors, wroteModule := true }

/-- The symbol table of a program with no declarations before its
technique. -/
def emptySymTab : SymTab := fun _ => none

/-- The token stream of:
technique T (brace) pass (brace) VertexShader = MissingShader ; (close)
pass (brace) (close) (close) -/
def c1FailingTokens : List Tok :=
  [.kwTechnique, .ident "T", .lbrace,
   .kwPass, .lbrace, .ident "VertexShader", .equal, .ident "MissingShader",
   .semicolon, .rbrace,
   .kwPass, .lbrace, .rbrace,
   .rbrace]

end Reshadefx

namespace Reshadefx

/-- C1: the claim that run returns true iff no error diagnostic was
emitted fails: for a technique whose first pass references an undeclared
VertexShader and is followed by another (well-formed, empty) pass, the
pass-list recovery of parse_technique drops the failure, so run returns
true although error 3004 sits in the diagnostics buffer. -/
theorem c1_run_true_despite_error :
    run_model emptySymTab 32 c1FailingTokens =
      .inScope { success := true, errors := [3004], wroteModule := true } := by
  rfl

/-- C2: the claim that write_module is not invoked when an error was
emitted fails: run invokes write_module unconditionally, also on a run
whose only top-level construct is a syntax error (3000), whose module
is therefore produced with the error in the buffer. -/
theorem c2_write_module_unconditional :
    run_model emptySymTab 32 [.equal] =
      .inScope { success := false, errors := [3000], wroteModule := true } := by
  rfl

end Reshadefx
